import Mathlib

/-!
Shallow embedding of `mcp-database-manager` (Python), covering
`src/mcp_database_manager/db_manager.py` and
`src/mcp_database_manager/server.py`.

The underlying SQLAlchemy driver layer (engine creation, inspection,
statement execution) is abstracted as a `World` record of pure functions;
the database content visible through an engine is a type parameter `DB`,
threaded explicitly so that commit/rollback behaviour of
`Engine.begin()` blocks is observable.  Machine state that the Python
code mutates (the engine cache `self._engines`) is passed and returned
explicitly as a `DBState`.
-/

set_option autoImplicit false

/-- Connection configuration entry.

Modelled from the spec: `config.py` (the `ConfigManager` and its
connection records) is not under `src/`; the spec describes a
configuration mapping from connection name to `\x7burl, readonly\x7d`. -/
structure ConnConfig where
  url : String
  readonly : Bool
deriving DecidableEq, Repr

/-- Modelled from the spec: the connection registry is a mapping from
connection name to `ConnConfig`, loaded once and immutable. -/
structure Config where
  connections : List (String × ConnConfig)
deriving DecidableEq, Repr

/-- Modelled from the spec: `ConfigManager.get_connection` returns the
configured entry for a name, or a falsy value (here `none`) when the
name is absent from configuration. -/
def Config.get_connection (cfg : Config) (connection_name : String) : Option ConnConfig :=
  (cfg.connections.find? (fun p => p.1 == connection_name)).map (fun p => p.2)

/-- A SQLAlchemy `Engine` handle, as observable by this embedding: the
URL it was created from plus a creation serial number (`id`) that lets
theorems distinguish a cached handle from a freshly created one. -/
structure Engine where
  id : Nat
  url : String
deriving DecidableEq, Repr

/-- The mutable state of a `DatabaseManager` instance:
`self._engines` (db_manager.py line 9) plus a counter of
`create_engine` calls used to mint fresh `Engine.id`s. -/
structure DBState where
  engines : List (String × Engine)
  nextId : Nat
deriving DecidableEq, Repr

/-- A result row: a mapping from column name to value
(`dict(row._mapping)` in db_manager.py line 59). -/
abbrev Row := List (String × String)

/-- A column description as returned by SQLAlchemy
`inspector.get_columns`: the `default` field distinguishes a missing
key (`none`, rendered as the empty string by `col.get('default', '')`),
an explicit Python `None` (`some none`, rendered as `NULL`), and a
present value (`some (some s)`). -/
structure Column where
  name : String
  type : String
  nullable : Bool
  default : Option (Option String)
deriving DecidableEq, Repr

/-- A table visible to the SQLAlchemy inspector. -/
structure Table where
  name : String
  columns : List Column
deriving DecidableEq, Repr

/-- The driver layer (SQLAlchemy and the databases behind it),
abstracted as pure functions.  `DB` is the content of the external
databases; every driver operation receives the engine URL so distinct
connections may behave differently.
* `createResult url = some m` means `create_engine(url)` raises with
  message `m`; `none` means it succeeds.
* `inspect` models `inspect(engine)` table/column introspection.
* `readExec` models `connection.execute(text(query))` plus row fetch
  on a plain `engine.connect()` context (read path, no commit).
* `writeExec` models `connection.execute(text(query))` inside an
  `engine.begin()` transaction: on success it yields the post-statement
  database and the driver-reported `rowcount`; an `Except.error`
  models the statement raising. -/
structure World (DB : Type) where
  createResult : String → Option String
  inspect : String → DB → List Table
  readExec : String → DB → String → Except String (List Row)
  writeExec : String → DB → String → Except String (DB × Int)

/-- Python exception values raised by the embedded code; `msg` is what
`str(e)` yields at the server boundary. -/
inductive Err where
  | valueError (msg : String)
  | typeError (msg : String)
  | runtimeError (msg : String)
  | permissionError (msg : String)
  | driverError (msg : String)
deriving DecidableEq, Repr

/-- Python str(e): the message carried by the exception. -/
def Err.msg : Err → String
  | .valueError m => m
  | .typeError m => m
  | .runtimeError m => m
  | .permissionError m => m
  | .driverError m => m

/-- Cache lookup `connection_name in self._engines` /
`self._engines[connection_name]` (db_manager.py lines 12-13). -/
def lookupEngine (st : DBState) (connection_name : String) : Option Engine :=
  (st.engines.find? (fun p => p.1 == connection_name)).map (fun p => p.2)

/-- Message of the `ValueError` in db_manager.py line 17. -/
def notFoundCfgMsg (connection_name : String) : String :=
  "Connection \x27" ++ connection_name ++ "\x27 not found in configuration."

/-- Message of the `ValueError` in db_manager.py line 64. -/
def notFoundMsg (connection_name : String) : String :=
  "Connection \x27" ++ connection_name ++ "\x27 not found."

/-- Message of the `RuntimeError` in db_manager.py line 24. -/
def createFailMsg (connection_name m : String) : String :=
  "Failed to create engine for \x27" ++ connection_name ++ "\x27: " ++ m

/-- Message of the `PermissionError` in db_manager.py line 67. -/
def readonlyMsg (connection_name : String) : String :=
  "Connection \x27" ++ connection_name ++ "\x27 is configured as READ-ONLY."

/-- Message of the `ValueError` in db_manager.py line 52. -/
def readRejectMsg : String :=
  "Write operations are not allowed in read_sql. Use write_sql instead."

/-- The list forbidden_keywords (db_manager.py line 50). -/
def forbidden_keywords : List String :=
  ["insert", "update", "delete", "drop", "alter", "create",
   "truncate", "grant", "revoke"]

/-- The ASCII whitespace characters removed by Python str.strip()
(space, tab, newline, carriage return, vertical tab, form feed);
Unicode whitespace beyond ASCII is not modelled. -/
def pyWhitespace (c : Char) : Bool :=
  c == ' ' || c == '\t' || c == '\n' || c == '\r' || c == '\x0b' || c == '\x0c'

/-- Python query.strip().lower() (db_manager.py line 49), modelled on
the character list: strip leading and trailing whitespace, then
lower-case (ASCII case folding; the keywords compared against are all
ASCII). -/
def query_strip_lower (query : String) : List Char :=
  ((((query.toList).dropWhile pyWhitespace).reverse.dropWhile pyWhitespace).reverse).map
    Char.toLower

/-- The denylist test of db_manager.py lines 49-51:
`query.strip().lower()` starts with one of the forbidden keywords. -/
def startsForbidden (query : String) : Bool :=
  forbidden_keywords.any (fun kw => kw.toList.isPrefixOf (query_strip_lower query))

/-- Lift a driver-level exception into the embedding's exception type. -/
def liftDriver {α : Type} : Except String α → Except Err α
  | .ok a => .ok a
  | .error m => .error (.driverError m)

namespace DatabaseManager

variable {DB : Type}

/-- Embeds `DatabaseManager._get_engine` (db_manager.py lines 11-24): cached
handle if present, else config lookup, else `create_engine` and cache
insertion.  Returns the (possibly raised) result together with the
engine cache after the call. -/
def _get_engine (cfg : Config) (w : World DB) (st : DBState)
    (connection_name : String) : Except Err Engine × DBState :=
  match lookupEngine st connection_name with
  | some e => (.ok e, st)
  | none =>
    match cfg.get_connection connection_name with
    | none => (.error (.valueError (notFoundCfgMsg connection_name)), st)
    | some conn_config =>
      match w.createResult conn_config.url with
      | some m => (.error (.runtimeError (createFailMsg connection_name m)), st)
      | none =>
        let engine : Engine := { id := st.nextId, url := conn_config.url }
        (.ok engine,
         { engines := (connection_name, engine) :: st.engines,
           nextId := st.nextId + 1 })

/-- Python `str(...)` of a boolean, as rendered by the f-string in
db_manager.py line 42 for `col['nullable']`. -/
def pyBool (b : Bool) : String := if b then "True" else "False"

/-- Rendering of `default_val` (db_manager.py lines 39-41):
missing key yields the `.get` default `''`; Python `None` yields
`'NULL'`; otherwise the value itself. -/
def default_str : Option (Option String) → String
  | none => ""
  | some none => "NULL"
  | some (some s) => s

/-- One column row of the schema table (db_manager.py line 42). -/
def column_row (col : Column) : String :=
  "| " ++ col.name ++ " | " ++ col.type ++ " | " ++ pyBool col.nullable
    ++ " | " ++ default_str col.default ++ " |\n"

/-- The markdown block for one table (db_manager.py lines 33-43). -/
def table_md (t : Table) : String :=
  "## Table: " ++ t.name ++ "\n\n"
    ++ (if t.columns.isEmpty then ""
        else "| Column | Type | Nullable | Default |\n|---|---|---|---|\n"
          ++ String.join (t.columns.map column_row))
    ++ "\n"

/-- Embeds `DatabaseManager.get_schema` (db_manager.py lines 26-45).  Note the
source signature takes exactly ONE data parameter, `connection_name`
(no table filter). -/
def get_schema (cfg : Config) (w : World DB) (st : DBState) (db : DB)
    (connection_name : String) : Except Err String × DBState :=
  match _get_engine cfg w st connection_name with
  | (.error e, st') => (.error e, st')
  | (.ok engine, st') =>
    let header := "# Schema for " ++ connection_name ++ "\n\n"
    (.ok ((w.inspect engine.url db).foldl (fun acc t => acc ++ table_md t) header),
     st')

/-- Embeds `DatabaseManager.execute_read` (db_manager.py lines 47-59): the
keyword denylist check runs first; only then is the engine obtained and
the query sent to the driver. -/
def execute_read (cfg : Config) (w : World DB) (st : DBState) (db : DB)
    (connection_name query : String) : Except Err (List Row) × DBState :=
  let query_lower := query_strip_lower query
  if forbidden_keywords.any (fun kw => kw.toList.isPrefixOf query_lower) then
    (.error (.valueError readRejectMsg), st)
  else
    match _get_engine cfg w st connection_name with
    | (.error e, st') => (.error e, st')
    | (.ok engine, st') => (liftDriver (w.readExec engine.url db query), st')

/-- The write-path success payload (db_manager.py lines 72-75). -/
structure WriteRes where
  status : String
  rows_affected : Int
deriving DecidableEq, Repr

/-- Embeds `DatabaseManager.execute_write` (db_manager.py lines 61-75): config
lookup and NotFound check, then the read-only gate, then the engine,
then the statement inside `engine.begin()` — which commits the
driver-reported new database on success and rolls back (the returned
database is the original one) when execution raises. -/
def execute_write (cfg : Config) (w : World DB) (st : DBState) (db : DB)
    (connection_name query : String) :
    Except Err WriteRes × DBState × DB :=
  match cfg.get_connection connection_name with
  | none => (.error (.valueError (notFoundMsg connection_name)), st, db)
  | some conn_config =>
    if conn_config.readonly then
      (.error (.permissionError (readonlyMsg connection_name)), st, db)
    else
      match _get_engine cfg w st connection_name with
      | (.error e, st') => (.error e, st', db)
      | (.ok engine, st') =>
        match w.writeExec engine.url db query with
        | .error m => (.error (.driverError m), st', db)
        | .ok (db', n) => (.ok { status := "success", rows_affected := n }, st', db')

end DatabaseManager

/-- A JSON-ish argument value as delivered to `call_tool`
(server.py): `none` models an absent key (Python `dict.get` default
`None`), `str` a string argument, `list` a list-of-strings argument
(`table_names`). -/
inductive PyVal where
  | none
  | str (s : String)
  | list (xs : List String)
deriving DecidableEq, Repr

/-- Python truthiness, as used by `if not connection_name or not query`
(server.py lines 92, 104, 121): `None`, the empty string and the empty
list are falsy. -/
def PyVal.truthy : PyVal → Bool
  | .none => false
  | .str s => !s.isEmpty
  | .list xs => !xs.isEmpty

/-- The string content of an argument value; the tool input schemas
declare `connection_name` and `query` as strings, so a truthy value on
those keys is a nonempty string. -/
def PyVal.asStr : PyVal → String
  | .str s => s
  | _ => ""

/-- The `arguments` mapping of a tool call. -/
abbrev Args := List (String × PyVal)

/-- Embeds arguments.get(k) (server.py lines 90-91, 102-103, 119-120):
the stored value, or `None` when the key is absent. -/
def Args.get (args : Args) (k : String) : PyVal :=
  match args.find? (fun p => p.1 == k) with
  | some p => p.2
  | Option.none => PyVal.none

/-- Python positional-call semantics for a bound method: a call whose
positional argument count (`self` included) differs from the callee's
parameter count raises `TypeError` before the body runs — the body's
effects (here: on the engine cache) do not happen.  `params` and
`argVals` do not count `self`; the `+ 1` accounts for it on both
sides. -/
def py_call (fname : String) (params : Nat) (argVals : List PyVal)
    (body : Except Err String × DBState) (st : DBState) :
    Except Err String × DBState :=
  if argVals.length = params then body
  else
    (.error (.typeError (fname ++ "() takes " ++ toString (params + 1)
      ++ " positional arguments but " ++ toString (argVals.length + 1)
      ++ " were given")), st)

/-- Modelled from the spec: `ConfigManager.list_connections` and the
per-connection `.dict()` (config.py is not under `src/`); the spec says
`list_connections` returns every configured connection's name and
read-only flag.  Rendered as JSON-ish text; no theorem inspects it. -/
def list_connections_json (cfg : Config) : String :=
  "[" ++ String.intercalate ", "
    (cfg.connections.map (fun p =>
      "\x7b\"name\": \"" ++ p.1 ++ "\", \"readonly\": "
        ++ (if p.2.readonly then "true" else "false") ++ "\x7d"))
    ++ "]"

/-- Models `json.dumps(results, indent=2, default=str)` (server.py
line 112); the exact rendered text is not relied on by any theorem. -/
def json_dumps_rows (rows : List Row) : String :=
  "[" ++ String.intercalate ", "
    (rows.map (fun r =>
      "\x7b" ++ String.intercalate ", "
        (r.map (fun p => "\"" ++ p.1 ++ "\": \"" ++ p.2 ++ "\"")) ++ "\x7d"))
    ++ "]"

/-- Models `json.dumps(result, indent=2, default=str)` (server.py
line 129); the exact rendered text is not relied on by any theorem. -/
def json_dumps_write (res : DatabaseManager.WriteRes) : String :=
  "\x7b\"status\": \"" ++ res.status ++ "\", \"rows_affected\": "
    ++ toString res.rows_affected ++ "\x7d"

/-- The `call_tool` handler (server.py lines 76-136).  The outer
`Except Err` distinguishes an exception propagated to the transport
(`.error`, e.g. the pre-dispatch argument `ValueError`s) from a normal
list of text contents (`.ok`); exceptions raised inside a tool body are
caught by the per-branch `try/except` and rendered as an
`"Error: <message>"` text.  The engine cache and the external database
after the call are returned alongside. -/
def call_tool {DB : Type} (cfg : Config) (w : World DB) (st : DBState) (db : DB)
    (name : String) (arguments : Args) :
    Except Err (List String) × DBState × DB :=
  if name == "list_connections" then
    (.ok [list_connections_json cfg], st, db)
  else if name == "get_schema" then
    let connection_name := arguments.get "connection_name"
    let table_names := arguments.get "table_names"
    if !connection_name.truthy then
      (.error (.valueError "connection_name is required"), st, db)
    else
      -- server.py line 96 passes TWO data arguments to
      -- DatabaseManager.get_schema, whose definition takes one.
      match py_call "get_schema" 1 [connection_name, table_names]
          (DatabaseManager.get_schema cfg w st db connection_name.asStr) st with
      | (.ok schema, st') => (.ok [schema], st', db)
      | (.error e, st') => (.ok ["Error: " ++ e.msg], st', db)
  else if name == "read_sql" then
    let connection_name := arguments.get "connection_name"
    let query := arguments.get "query"
    if !connection_name.truthy || !query.truthy then
      (.error (.valueError "connection_name and query are required"), st, db)
    else
      match DatabaseManager.execute_read cfg w st db connection_name.asStr query.asStr with
      | (.ok results, st') => (.ok [json_dumps_rows results], st', db)
      | (.error e, st') => (.ok ["Error: " ++ e.msg], st', db)
  else if name == "write_sql" then
    let connection_name := arguments.get "connection_name"
    let query := arguments.get "query"
    if !connection_name.truthy || !query.truthy then
      (.error (.valueError "connection_name and query are required"), st, db)
    else
      match DatabaseManager.execute_write cfg w st db connection_name.asStr query.asStr with
      | (.ok result, st', db') => (.ok [json_dumps_write result], st', db')
      | (.error e, st', db') => (.ok ["Error: " ++ e.msg], st', db')
  else
    (.error (.valueError ("Unknown tool: " ++ name)), st, db)

/-! ## Concrete fixtures used by witnesses and counterexamples -/

/-- A writable connection entry. -/
def cc1 : ConnConfig := { url := "sqlite:///test.db", readonly := false }

/-- A read-only connection entry. -/
def ccRo : ConnConfig := { url := "sqlite:///ro.db", readonly := true }

/-- A configuration with one writable connection named db1. -/
def cfg1 : Config := { connections := [("db1", cc1)] }

/-- A configuration with one read-only connection named ro. -/
def roCfg : Config := { connections := [("ro", ccRo)] }

/-- The empty configuration. -/
def cfgEmpty : Config := { connections := [] }

/-- The initial (empty) engine cache. -/
def st0 : DBState := { engines := [], nextId := 0 }

/-- The engine created on first access to db1 from `st0` under `w1`. -/
def eng1 : Engine := { id := 0, url := "sqlite:///test.db" }

/-- The cache state after that first access. -/
def st1 : DBState := { engines := [("db1", eng1)], nextId := 1 }

/-- A driver world (over `DB := Nat`) where everything succeeds:
engine creation works, the schema has a `users` table, reads return one
row, a write bumps the database value and reports one affected row. -/
def w1 : World Nat :=
  { createResult := fun _ => none
    inspect := fun _ _ =>
      [{ name := "users"
         columns :=
           [{ name := "id", type := "INTEGER", nullable := false, default := some none },
            { name := "name", type := "VARCHAR", nullable := true, default := none }] }]
    readExec := fun _ _ _ => .ok [[("x", "1")]]
    writeExec := fun _ db _ => .ok (db + 1, 1) }

/-- Like `w1`, except every write statement raises with message boom. -/
def w2 : World Nat :=
  { createResult := fun _ => none
    inspect := w1.inspect
    readExec := w1.readExec
    writeExec := fun _ _ _ => .error "boom" }

/-! ## Helper lemmas -/

/-- Invariant of every reachable engine-cache state: only configured
names are cached (`_get_engine` inserts a cache entry only after a
successful configuration lookup). -/
def cacheConfigured (cfg : Config) (st : DBState) : Prop :=
  ∀ p ∈ st.engines, (cfg.get_connection p.1).isSome

theorem lookupEngine_eq_none_of_unconfigured (cfg : Config) (st : DBState)
    (connection_name : String) (hinv : cacheConfigured cfg st)
    (h : cfg.get_connection connection_name = none) :
    lookupEngine st connection_name = none := by
  unfold lookupEngine
  cases hf : st.engines.find? (fun p => p.1 == connection_name) with
  | none => rfl
  | some p =>
    have hmem := List.mem_of_find?_eq_some hf
    have hbeq := List.find?_some hf
    have hkey : p.1 = connection_name := by
      simpa using hbeq
    have hsome := hinv p hmem
    rw [hkey, h] at hsome
    simp at hsome

/-- Unfolding equation for `execute_read`, exposing the denylist test
through `startsForbidden`. -/
theorem execute_read_eq {DB : Type} (cfg : Config) (w : World DB) (st : DBState)
    (db : DB) (connection_name query : String) :
    DatabaseManager.execute_read cfg w st db connection_name query =
      (if startsForbidden query then (.error (.valueError readRejectMsg), st)
       else
        match DatabaseManager._get_engine cfg w st connection_name with
        | (.error e, st2) => (.error e, st2)
        | (.ok engine, st2) => (liftDriver (w.readExec engine.url db query), st2)) := rfl

/-! ## Claim theorems -/

/-- Claim C2: on a connection configured read-only, `execute_write`
fails with the PermissionError for every query text; the engine cache
is untouched, the external database is untouched, and the result does
not depend on the driver world at all (no statement reaches the driver,
no engine is looked up or created). -/
theorem write_sql_readonly_denied {DB : Type} (cfg : Config) (w : World DB)
    (st : DBState) (db : DB) (connection_name query : String) (conn_config : ConnConfig)
    (hc : cfg.get_connection connection_name = some conn_config)
    (hro : conn_config.readonly = true) :
    DatabaseManager.execute_write cfg w st db connection_name query =
      (.error (.permissionError (readonlyMsg connection_name)), st, db) := by
  simp [DatabaseManager.execute_write, hc, hro]

/-- Witness for C2 at a concrete read-only connection and a concrete
mutating query. -/
theorem write_sql_readonly_denied_witness :
    ccRo.readonly = true
    ∧ DatabaseManager.execute_write roCfg w1 st0 (0 : Nat) "ro" "DELETE FROM t" =
      (.error (.permissionError (readonlyMsg "ro")), st0, 0) :=
  ⟨rfl, write_sql_readonly_denied roCfg w1 st0 0 "ro" "DELETE FROM t" ccRo rfl rfl⟩

/-- Claim C7: the engine cache is populated at most once per name — a
successful `_get_engine` leaves the handle stored under the name, and
every later `_get_engine` for that name returns the stored handle with
the state unchanged (no new handle is created: the creation counter and
cache are untouched). -/
theorem engine_cache_at_most_once {DB : Type} (cfg : Config) (w : World DB)
    (st : DBState) (connection_name : String) (engine : Engine) (st2 : DBState)
    (h : DatabaseManager._get_engine cfg w st connection_name = (.ok engine, st2)) :
    lookupEngine st2 connection_name = some engine
    ∧ DatabaseManager._get_engine cfg w st2 connection_name = (.ok engine, st2) := by
  have hlk : lookupEngine st2 connection_name = some engine := by
    unfold DatabaseManager._get_engine at h
    split at h
    · rename_i e heq
      obtain ⟨rfl, rfl⟩ : e = engine ∧ st = st2 := by simpa using h
      exact heq
    · rename_i heq
      split at h
      · simp at h
      · rename_i conn_config hc
        split at h
        · simp at h
        · rename_i hcr
          obtain ⟨he2, hst2⟩ :
              Engine.mk st.nextId conn_config.url = engine
              ∧ DBState.mk ((connection_name,
                    Engine.mk st.nextId conn_config.url) :: st.engines)
                  (st.nextId + 1) = st2 := by
            simpa using h
          rw [← hst2, ← he2]
          simp [lookupEngine, List.find?]
  refine ⟨hlk, ?_⟩
  unfold DatabaseManager._get_engine
  rw [hlk]

/-- Witness for C7: first access from the empty cache creates and
stores the handle; re-access returns it unchanged. -/
theorem engine_cache_at_most_once_witness :
    lookupEngine st1 "db1" = some eng1
    ∧ DatabaseManager._get_engine cfg1 w1 st1 "db1" = (.ok eng1, st1) :=
  engine_cache_at_most_once cfg1 w1 st0 "db1" eng1 st1 rfl

/-- Claim C10: the mutating-keyword check of `execute_read` runs before
the connection lookup — on a denylisted query with an unknown
connection name the result is the validation error, not the NotFound
error, and the engine cache is returned unchanged. -/
theorem keyword_check_before_lookup {DB : Type} (cfg : Config) (w : World DB)
    (st : DBState) (db : DB) (connection_name query : String)
    (hq : startsForbidden query = true)
    (hn : cfg.get_connection connection_name = none) :
    DatabaseManager.execute_read cfg w st db connection_name query =
      (.error (.valueError readRejectMsg), st) := by
  rw [execute_read_eq, hq]
  simp

/-- Witness for C10 at an unknown connection and a denylisted query. -/
theorem keyword_check_before_lookup_witness :
    startsForbidden "DROP TABLE t" = true
    ∧ cfgEmpty.get_connection "missing" = none
    ∧ DatabaseManager.execute_read cfgEmpty w1 st0 (0 : Nat) "missing" "DROP TABLE t" =
      (.error (.valueError readRejectMsg), st0) :=
  ⟨by decide, rfl,
   keyword_check_before_lookup cfgEmpty w1 st0 0 "missing" "DROP TABLE t" (by decide) rfl⟩

/-- Claim C3: `execute_read` rejects (before any engine lookup or
driver call, with the cache unchanged) exactly the queries whose
stripped lower-cased text starts with one of the nine denylisted
keywords; every other query passes the check and is executed against
the driver once the engine is obtained. -/
theorem read_sql_keyword_gate {DB : Type} (cfg : Config) (w : World DB) (st : DBState)
    (db : DB) (connection_name query : String) :
    (startsForbidden query = true →
      DatabaseManager.execute_read cfg w st db connection_name query =
        (.error (.valueError readRejectMsg), st))
    ∧ (startsForbidden query = false →
      ∀ engine st2,
        DatabaseManager._get_engine cfg w st connection_name = (.ok engine, st2) →
        DatabaseManager.execute_read cfg w st db connection_name query =
          (liftDriver (w.readExec engine.url db query), st2)) := by
  constructor
  · intro hq
    rw [execute_read_eq, hq]
    simp
  · intro hq engine st2 he
    rw [execute_read_eq, hq]
    simp [he]

/-- Witness for C3: a denylisted query is rejected, a select passes and
is handed to the driver. -/
theorem read_sql_keyword_gate_witness :
    DatabaseManager.execute_read cfg1 w1 st0 (0 : Nat) "db1" "  INSERT INTO t VALUES (1)" =
      (.error (.valueError readRejectMsg), st0)
    ∧ DatabaseManager.execute_read cfg1 w1 st0 (0 : Nat) "db1" "select 1" =
      (liftDriver (w1.readExec eng1.url 0 "select 1"), st1) :=
  ⟨(read_sql_keyword_gate cfg1 w1 st0 0 "db1" "  INSERT INTO t VALUES (1)").1 (by decide),
   (read_sql_keyword_gate cfg1 w1 st0 0 "db1" "select 1").2 (by decide) eng1 st1 rfl⟩

/-- Counterexample to claim C4 as stated: with an unknown connection
name and a query starting with a denylisted keyword, `execute_read`
raises the keyword-validation error, not the NotFound error — so it is
not true that every operation on an unknown name yields a
NotFound-style error for every query text. -/
theorem read_sql_unknown_conn_not_notfound :
    DatabaseManager.execute_read cfgEmpty w1 st0 (0 : Nat) "missing" "insert into t values (1)" =
      (.error (.valueError readRejectMsg), st0)
    ∧ Err.valueError readRejectMsg ≠ Err.valueError (notFoundCfgMsg "missing")
    ∧ Err.valueError readRejectMsg ≠ Err.valueError (notFoundMsg "missing") := by
  refine ⟨rfl, by decide, by decide⟩

/-- Claim C4 (amended): for a connection name absent from the
configuration (and not cached, which holds in every reachable state),
`get_schema` and `execute_write` return the NotFound error for every
query, and `execute_read` returns the NotFound error for every query
that does not match the keyword denylist (a denylisted query gets the
validation error instead); in all cases the cache and the database are
unchanged and nothing reaches the driver. -/
theorem unknown_connection_notfound {DB : Type} (cfg : Config) (w : World DB)
    (st : DBState) (db : DB) (connection_name query : String)
    (h : cfg.get_connection connection_name = none)
    (hinv : cacheConfigured cfg st) :
    DatabaseManager.get_schema cfg w st db connection_name =
      (.error (.valueError (notFoundCfgMsg connection_name)), st)
    ∧ DatabaseManager.execute_write cfg w st db connection_name query =
      (.error (.valueError (notFoundMsg connection_name)), st, db)
    ∧ (startsForbidden query = false →
      DatabaseManager.execute_read cfg w st db connection_name query =
        (.error (.valueError (notFoundCfgMsg connection_name)), st)) := by
  have hl := lookupEngine_eq_none_of_unconfigured cfg st connection_name hinv h
  have hge : DatabaseManager._get_engine cfg w st connection_name =
      (.error (.valueError (notFoundCfgMsg connection_name)), st) := by
    unfold DatabaseManager._get_engine
    rw [hl, h]
  refine ⟨?_, ?_, ?_⟩
  · unfold DatabaseManager.get_schema
    rw [hge]
  · simp [DatabaseManager.execute_write, h]
  · intro hq
    rw [execute_read_eq, hq]
    simp [hge]

/-- Witness for the amended C4 at a concrete unknown name. -/
theorem unknown_connection_notfound_witness :
    DatabaseManager.get_schema cfgEmpty w1 st0 (0 : Nat) "missing" =
      (.error (.valueError (notFoundCfgMsg "missing")), st0)
    ∧ DatabaseManager.execute_write cfgEmpty w1 st0 (0 : Nat) "missing" "select 1" =
      (.error (.valueError (notFoundMsg "missing")), st0, 0)
    ∧ DatabaseManager.execute_read cfgEmpty w1 st0 (0 : Nat) "missing" "select 1" =
      (.error (.valueError (notFoundCfgMsg "missing")), st0) := by
  have h := unknown_connection_notfound cfgEmpty w1 st0 (0 : Nat) "missing" "select 1" rfl
    (by intro p hp; simp [st0] at hp)
  exact ⟨h.1, h.2.1, h.2.2 (by decide)⟩

/-- Claim C5: on a writable connection, once the engine is obtained the
statement runs inside the `engine.begin()` transaction scope: if the
driver reports success with n affected rows the result is the success
payload with rows_affected = n and the driver-committed database is
kept; if the driver raises, the returned database is the original one
(full rollback, no partial change committed). -/
theorem write_sql_transactional {DB : Type} (cfg : Config) (w : World DB) (st : DBState)
    (db : DB) (connection_name query : String) (conn_config : ConnConfig)
    (engine : Engine) (st2 : DBState)
    (hc : cfg.get_connection connection_name = some conn_config)
    (hro : conn_config.readonly = false)
    (he : DatabaseManager._get_engine cfg w st connection_name = (.ok engine, st2)) :
    (∀ db2 n, w.writeExec engine.url db query = .ok (db2, n) →
      DatabaseManager.execute_write cfg w st db connection_name query =
        (.ok { status := "success", rows_affected := n }, st2, db2))
    ∧ (∀ m, w.writeExec engine.url db query = .error m →
      DatabaseManager.execute_write cfg w st db connection_name query =
        (.error (.driverError m), st2, db)) := by
  constructor
  · intro db2 n hw
    simp [DatabaseManager.execute_write, hc, hro, he, hw]
  · intro m hw
    simp [DatabaseManager.execute_write, hc, hro, he, hw]

/-- Witness for C5: a committing write under `w1` and a raising write
under `w2` (same engine, database left at its pre-call value). -/
theorem write_sql_transactional_witness :
    DatabaseManager.execute_write cfg1 w1 st0 (0 : Nat) "db1" "UPDATE t SET a=1 WHERE id=1" =
      (.ok { status := "success", rows_affected := 1 }, st1, 1)
    ∧ DatabaseManager.execute_write cfg1 w2 st0 (0 : Nat) "db1" "UPDATE t SET a=1 WHERE id=1" =
      (.error (.driverError "boom"), st1, 0) :=
  ⟨(write_sql_transactional cfg1 w1 st0 0 "db1" "UPDATE t SET a=1 WHERE id=1"
      cc1 eng1 st1 rfl rfl rfl).1 1 1 rfl,
   (write_sql_transactional cfg1 w2 st0 0 "db1" "UPDATE t SET a=1 WHERE id=1"
      cc1 eng1 st1 rfl rfl rfl).2 "boom" rfl⟩

/-- Claim C6: a tool call with a required argument missing fails with
the pre-dispatch ValueError, which is propagated to the transport
(an `Except.error`, not an "Error: ..." text), before any connection
lookup or driver interaction (cache and database unchanged, result
independent of configuration and driver). -/
theorem missing_required_args_propagate {DB : Type} (cfg : Config) (w : World DB)
    (st : DBState) (db : DB) (args args2 : Args)
    (h : args.get "connection_name" = PyVal.none)
    (h2 : args2.get "query" = PyVal.none) :
    call_tool cfg w st db "get_schema" args =
      (.error (.valueError "connection_name is required"), st, db)
    ∧ call_tool cfg w st db "read_sql" args =
      (.error (.valueError "connection_name and query are required"), st, db)
    ∧ call_tool cfg w st db "write_sql" args =
      (.error (.valueError "connection_name and query are required"), st, db)
    ∧ call_tool cfg w st db "read_sql" args2 =
      (.error (.valueError "connection_name and query are required"), st, db)
    ∧ call_tool cfg w st db "write_sql" args2 =
      (.error (.valueError "connection_name and query are required"), st, db) := by
  refine ⟨?_, ?_, ?_, ?_, ?_⟩ <;>
    simp [call_tool, h, h2, PyVal.truthy]

/-- Witness for C6: calls with an empty argument mapping, and calls
whose mapping lacks the query key. -/
theorem missing_required_args_propagate_witness :
    call_tool cfg1 w1 st0 (0 : Nat) "get_schema" [] =
      (.error (.valueError "connection_name is required"), st0, 0)
    ∧ call_tool cfg1 w1 st0 (0 : Nat) "read_sql" [] =
      (.error (.valueError "connection_name and query are required"), st0, 0)
    ∧ call_tool cfg1 w1 st0 (0 : Nat) "write_sql" [] =
      (.error (.valueError "connection_name and query are required"), st0, 0)
    ∧ call_tool cfg1 w1 st0 (0 : Nat) "read_sql" [("connection_name", PyVal.str "db1")] =
      (.error (.valueError "connection_name and query are required"), st0, 0)
    ∧ call_tool cfg1 w1 st0 (0 : Nat) "write_sql" [("connection_name", PyVal.str "db1")] =
      (.error (.valueError "connection_name and query are required"), st0, 0) :=
  missing_required_args_propagate cfg1 w1 st0 0 [] [("connection_name", PyVal.str "db1")]
    rfl rfl

/-- Claim C9: a required argument that is present but equal to the
empty string is treated exactly like a missing one — the same
pre-dispatch ValueError is raised (and propagated) before any
connection lookup, because presence is tested by truthiness. -/
theorem empty_string_arg_like_missing {DB : Type} (cfg : Config) (w : World DB)
    (st : DBState) (db : DB) (cn q : String) :
    call_tool cfg w st db "get_schema" [("connection_name", PyVal.str "")] =
      (.error (.valueError "connection_name is required"), st, db)
    ∧ call_tool cfg w st db "read_sql"
        [("connection_name", PyVal.str ""), ("query", PyVal.str q)] =
      (.error (.valueError "connection_name and query are required"), st, db)
    ∧ call_tool cfg w st db "read_sql"
        [("connection_name", PyVal.str cn), ("query", PyVal.str "")] =
      (.error (.valueError "connection_name and query are required"), st, db)
    ∧ call_tool cfg w st db "write_sql"
        [("connection_name", PyVal.str ""), ("query", PyVal.str q)] =
      (.error (.valueError "connection_name and query are required"), st, db)
    ∧ call_tool cfg w st db "write_sql"
        [("connection_name", PyVal.str cn), ("query", PyVal.str "")] =
      (.error (.valueError "connection_name and query are required"), st, db) := by
  refine ⟨?_, ?_, ?_, ?_, ?_⟩ <;>
    simp [call_tool, Args.get, PyVal.truthy] <;>
    first
    | (intro h; exact absurd h (by decide))
    | (intro h1 h2; exact absurd h2 (by decide))

/-- Claim C8: once the argument validation passes, every exception
raised inside a tool body is caught by that branch's try/except and
rendered as a normal text response "Error: <message>" (the outer result
is `Except.ok`, never a propagated failure); the state after the call
is whatever the body left behind. -/
theorem tool_body_errors_rendered {DB : Type} (cfg : Config) (w : World DB)
    (st : DBState) (db : DB) (cn q : String)
    (hcn : cn.isEmpty = false) (hq : q.isEmpty = false) :
    call_tool cfg w st db "get_schema" [("connection_name", PyVal.str cn)] =
      (.ok ["Error: get_schema() takes 2 positional arguments but 3 were given"], st, db)
    ∧ (∀ e st2, DatabaseManager.execute_read cfg w st db cn q = (.error e, st2) →
        call_tool cfg w st db "read_sql"
          [("connection_name", PyVal.str cn), ("query", PyVal.str q)] =
          (.ok ["Error: " ++ e.msg], st2, db))
    ∧ (∀ e st2 db2, DatabaseManager.execute_write cfg w st db cn q = (.error e, st2, db2) →
        call_tool cfg w st db "write_sql"
          [("connection_name", PyVal.str cn), ("query", PyVal.str q)] =
          (.ok ["Error: " ++ e.msg], st2, db2)) := by
  refine ⟨?_, ?_, ?_⟩
  · simp [call_tool, Args.get, PyVal.truthy, PyVal.asStr, hcn, py_call]
    rfl
  · intro e st2 hr
    simp [call_tool, Args.get, PyVal.truthy, PyVal.asStr, hcn, hq, hr]
  · intro e st2 db2 hr
    simp [call_tool, Args.get, PyVal.truthy, PyVal.asStr, hcn, hq, hr]

/-- Witness for C8: NotFound exceptions raised inside the three bodies
(and the arity TypeError in the get_schema body) come back as
"Error: ..." texts. -/
theorem tool_body_errors_rendered_witness :
    call_tool cfgEmpty w1 st0 (0 : Nat) "get_schema" [("connection_name", PyVal.str "missing")] =
      (.ok ["Error: get_schema() takes 2 positional arguments but 3 were given"], st0, 0)
    ∧ call_tool cfgEmpty w1 st0 (0 : Nat) "read_sql"
        [("connection_name", PyVal.str "missing"), ("query", PyVal.str "select 1")] =
      (.ok ["Error: " ++ (Err.valueError (notFoundCfgMsg "missing")).msg], st0, 0)
    ∧ call_tool cfgEmpty w1 st0 (0 : Nat) "write_sql"
        [("connection_name", PyVal.str "missing"), ("query", PyVal.str "select 1")] =
      (.ok ["Error: " ++ (Err.valueError (notFoundMsg "missing")).msg], st0, 0) := by
  have h := tool_body_errors_rendered cfgEmpty w1 st0 (0 : Nat) "missing" "select 1" rfl rfl
  exact ⟨h.1, h.2.1 _ _ rfl, h.2.2 _ _ _ rfl⟩

/-- Claim C1 (code bug): through the tool surface, get_schema never
returns a schema report — server.py line 96 passes the optional
table_names along to `DatabaseManager.get_schema`, which only accepts
`connection_name`, so the call raises TypeError on arity and the tool
answers with the rendered error text instead of the table/column
report, even for a configured connection with tables. -/
theorem get_schema_tool_arity_failure :
    call_tool cfg1 w1 st0 (0 : Nat) "get_schema" [("connection_name", PyVal.str "db1")] =
      (.ok ["Error: get_schema() takes 2 positional arguments but 3 were given"], st0, 0) := rfl
